import Mathlib

/-!
Verification of the serving-platform backend's spec-synthesis and
inference-adapter logic, a shallow embedding of
`src/kserve_module/service.py` (class `KServeService`) together with the
caller-facing schemas of `src/kserve_module/schemas.py`.

Modelling conventions:
* Python `Optional[T]` becomes `Option T`; Python `None` checks become
  `Option` matches.
* The MLflow model registry is an explicit parameter of type
  `Registry := String → List ModelVersion` (a model name mapped to the
  ordered list returned by `get_latest_versions`); functions that may
  consult it additionally return the list of model names they looked up,
  so that "the registry is (not) consulted" is a provable statement.
* `infer_model` is embedded up to the point where the source hands a URL,
  a Host header and a JSON body to `httpx.post`: it returns the
  `HttpPost` value the source would send, or the Python error the source
  would raise while building it.
-/

namespace KServeModule

/-! ## Caller-facing schemas (`schemas.py`) -/

structure Env where
  name : String
  value : String
  deriving Repr, DecidableEq

structure Batcher where
  max_batch_size : Int
  max_latency : Int
  deriving Repr, DecidableEq

structure Toleration where
  key : String
  operator : String
  value : String
  effect : String
  toleration_seconds : Option Int := none
  deriving Repr, DecidableEq

structure Logger where
  mode : String
  url : String
  deriving Repr, DecidableEq

structure ModelFormat where
  name : String := "mlflow"
  version : Option String := none
  deriving Repr, DecidableEq

structure Port where
  name : Option String := none
  protocol : Option String := none
  container_port : Option Int := none
  host_ip : Option String := none
  host_port : Option Int := none
  deriving Repr, DecidableEq

structure Resource where
  cpu : Option String := none
  memory : Option String := none
  gpu : Option Int := none
  deriving Repr, DecidableEq

structure ResourceRequirements where
  limits : Option Resource := none
  requests : Option Resource := none
  deriving Repr, DecidableEq

structure Container where
  image : Option String := none
  image_pull_policy : Option String := none
  name : Option String := none
  command : Option (List String) := none
  args : Option (List String) := none
  ports : Option (List Port) := none
  resources : Option ResourceRequirements := none
  deriving Repr, DecidableEq

structure ModelSpec where
  model_name : Option String := none
  storage_uri : Option String := none
  protocol_version : Option String := none
  model_format : ModelFormat
  resources : Option ResourceRequirements := none
  runtime : Option String := none
  runtime_version : Option String := none
  ports : Option (List Port) := none
  envs : Option (List Env) := none
  deriving Repr, DecidableEq

structure PredictorSpec where
  model_spec : ModelSpec
  service_account_name : String := "kserve-sa"
  node_selector : Option (List (String × String)) := none
  timeout : Option Int := none
  min_replicas : Option Int := none
  max_replicas : Option Int := none
  scale_target : Option Int := none
  scale_metric : Option String := none
  canary_traffic_percent : Option Int := none
  batcher : Option Batcher := none
  logger : Option Logger := none
  tolerations : Option (List Toleration) := none
  deriving Repr, DecidableEq

structure TransformerSpec where
  containers : List Container
  service_account_name : String := "kserve-sa"
  node_selector : Option (List (String × String)) := none
  timeout : Option Int := none
  min_replicas : Option Int := none
  max_replicas : Option Int := none
  scale_target : Option Int := none
  scale_metric : Option String := none
  canary_traffic_percent : Option Int := none
  batcher : Option Batcher := none
  tolerations : Option (List Toleration) := none
  deriving Repr, DecidableEq

structure InferenceServiceSpec where
  predictor : PredictorSpec
  transformer : Option TransformerSpec := none
  deriving Repr, DecidableEq

structure InferenceServiceInfo where
  name : String
  namespace_ : String := "kubeflow-user-example-com"
  inference_service_spec : InferenceServiceSpec
  sidecar_inject : Bool := false
  enable_prometheus_scraping : Bool := false
  deriving Repr, DecidableEq

/-! ## Downstream (kserve / kubernetes client) wire records -/

structure V1EnvVar where
  name : String
  value : String
  deriving Repr, DecidableEq

structure V1Toleration where
  key : String
  operator : String
  value : String
  effect : String
  deriving Repr, DecidableEq

structure V1ContainerPort where
  container_port : Option Int := none
  host_ip : Option String := none
  host_port : Option Int := none
  name : Option String := none
  protocol : Option String := none
  deriving Repr, DecidableEq

/-- The sparse resource map built by `get_resource_dict`: a Python dict
whose only possible keys are `"cpu"`, `"memory"` and `"nvidia.com/gpu"`,
modelled with one optional field per key. -/
structure ResourceDict where
  cpu : Option String := none
  memory : Option String := none
  gpu : Option Int := none
  deriving Repr, DecidableEq

/-- `len(resource_dict)` of the Python dict. -/
def ResourceDict.size (d : ResourceDict) : Nat :=
  (if d.cpu.isSome then 1 else 0) + (if d.memory.isSome then 1 else 0) +
    (if d.gpu.isSome then 1 else 0)

structure V1ResourceRequirements where
  limits : Option ResourceDict := none
  requests : Option ResourceDict := none
  deriving Repr, DecidableEq

structure V1Container where
  image : Option String := none
  image_pull_policy : Option String := none
  name : Option String := none
  command : Option (List String) := none
  args : Option (List String) := none
  ports : Option (List V1ContainerPort) := none
  resources : Option V1ResourceRequirements := none
  deriving Repr, DecidableEq

structure V1beta1ModelFormat where
  name : String
  version : Option String := none
  deriving Repr, DecidableEq

structure V1beta1LoggerSpec where
  mode : String
  url : String
  deriving Repr, DecidableEq

structure V1beta1Batcher where
  max_batch_size : Int
  max_latency : Int
  deriving Repr, DecidableEq

structure V1beta1ModelSpec where
  model_format : V1beta1ModelFormat
  storage_uri : Option String := none
  protocol_version : Option String := none
  resources : Option V1ResourceRequirements := none
  runtime : Option String := none
  runtime_version : Option String := none
  ports : Option (List V1ContainerPort) := none
  env : Option (List V1EnvVar) := none
  deriving Repr, DecidableEq

structure V1beta1PredictorSpec where
  model : V1beta1ModelSpec
  service_account_name : String
  node_selector : Option (List (String × String)) := none
  timeout : Option Int := none
  min_replicas : Option Int := none
  max_replicas : Option Int := none
  scale_target : Option Int := none
  scale_metric : Option String := none
  canary_traffic_percent : Option Int := none
  batcher : Option V1beta1Batcher := none
  logger : Option V1beta1LoggerSpec := none
  tolerations : Option (List V1Toleration) := none
  deriving Repr, DecidableEq

structure V1beta1TransformerSpec where
  containers : List V1Container
  service_account_name : String
  node_selector : Option (List (String × String)) := none
  timeout : Option Int := none
  min_replicas : Option Int := none
  max_replicas : Option Int := none
  scale_target : Option Int := none
  scale_metric : Option String := none
  canary_traffic_percent : Option Int := none
  batcher : Option V1beta1Batcher := none
  tolerations : Option (List V1Toleration) := none
  deriving Repr, DecidableEq

structure V1beta1InferenceServiceSpec where
  predictor : V1beta1PredictorSpec
  transformer : Option V1beta1TransformerSpec := none
  deriving Repr, DecidableEq

structure V1ObjectMeta where
  name : String
  namespace_ : Option String := none
  annotations : Option (List (String × String)) := none
  deriving Repr, DecidableEq

structure V1beta1InferenceService where
  api_version : String
  kind : String
  metadata : V1ObjectMeta
  spec : V1beta1InferenceServiceSpec
  deriving Repr, DecidableEq

/-! ## Resource dictionary builder (`KServeService.get_resource_dict`) -/

/-- Embeds `KServeService.get_resource_dict` (service.py lines 34-56):
the Python dict is grown key by key; `cpu` is kept only when the stripped
string ends with `"m"`, `memory` only when the stripped string ends with
`"Gi"`, the gpu count only when present and `> 0`; an empty dict collapses
to `None`. -/
def get_resource_dict : Option Resource → Option ResourceDict
  | none => none
  | some resource =>
    let d0 : ResourceDict := {}
    let d1 : ResourceDict := match resource.cpu with
      | some cpu => if cpu.trim.endsWith "m" then { d0 with cpu := some cpu.trim } else d0
      | none => d0
    let d2 : ResourceDict := match resource.memory with
      | some memory => if memory.trim.endsWith "Gi" then { d1 with memory := some memory.trim } else d1
      | none => d1
    let d3 : ResourceDict := match resource.gpu with
      | some gpu => if 0 < gpu then { d2 with gpu := some gpu } else d2
      | none => d2
    if d3.size < 1 then none else some d3

/-! ## Metadata annotation derivation
(`KServeService.get_inference_service_annotation`, service.py lines 248-259) -/

/-- Embeds `KServeService.get_inference_service_annotation`: the Python
dict is modelled as an insertion-ordered association list; it collapses to
`None` when no entry was added. -/
def get_inference_service_annotations (sidecar_inject : Bool)
    (enable_prometheus_scraping : Bool) : Option (List (String × String)) :=
  let a0 : List (String × String) := []
  let a1 := if !sidecar_inject then a0 ++ [("sidecar.istio.io/inject", "false")] else a0
  let a2 := if enable_prometheus_scraping
    then a1 ++ [("serving.kserve.io/enable-prometheus-scraping", "true")] else a1
  if a2.length < 1 then none else some a2

/-! ## Leaf converters (service.py lines 58-198) -/

/-- Embeds `KServeService.create_v1beta1_model_format`. -/
def create_v1beta1_model_format (model_format : ModelFormat) : V1beta1ModelFormat :=
  { name := model_format.name, version := model_format.version }

/-- Embeds `KServeService.create_v1_resource_requirements`: absent when the
input is absent or when both limit and request dictionaries collapse. -/
def create_v1_resource_requirements :
    Option ResourceRequirements → Option V1ResourceRequirements
  | none => none
  | some resource_requirements =>
    let limits := get_resource_dict resource_requirements.limits
    let requests := get_resource_dict resource_requirements.requests
    if limits = none ∧ requests = none then none
    else some { limits := limits, requests := requests }

/-- Embeds `KServeService.create_v1_container_port`: absent when every
argument is `None`. -/
def create_v1_container_port (container_port : Option Int) (host_ip : Option String)
    (host_port : Option Int) (name : Option String) (protocol : Option String) :
    Option V1ContainerPort :=
  if container_port = none ∧ host_ip = none ∧ host_port = none ∧ name = none ∧
      protocol = none then none
  else some { container_port := container_port, host_ip := host_ip, host_port := host_port,
              name := name, protocol := protocol }

/-- The body of the source's conversion loops: append the converted entry
when it is present, keep the accumulator unchanged when it is `None`. -/
def append_if_present {β : Type} (acc : List β) (entry : Option β) : List β :=
  match entry with
  | some v => acc ++ [v]
  | none => acc

/-- Embeds `KServeService.create_v1_container_port_list`: the source loop
appends each converted port that is not `None` and collapses an empty
result list to `None`. -/
def create_v1_container_port_list : Option (List Port) → Option (List V1ContainerPort)
  | none => none
  | some ports =>
    let port_list := ports.foldl
      (fun acc port =>
        append_if_present acc (create_v1_container_port port.container_port port.host_ip
          port.host_port port.name port.protocol)) []
    if port_list.length < 1 then none else some port_list

/-- Embeds `KServeService.create_v1_container`: absent when every argument
is `None` (note: a *present but collapsing* `resources` argument still
counts as present, exactly as in the source). -/
def create_v1_container (image : Option String) (image_pull_policy : Option String)
    (name : Option String) (command : Option (List String)) (args : Option (List String))
    (ports : Option (List Port)) (resources : Option ResourceRequirements) :
    Option V1Container :=
  if image = none ∧ image_pull_policy = none ∧ name = none ∧ command = none ∧
      args = none ∧ ports = none ∧ resources = none then none
  else some { image := image, image_pull_policy := image_pull_policy, name := name,
              command := command, args := args,
              ports := create_v1_container_port_list ports,
              resources := create_v1_resource_requirements resources }

/-- Embeds `KServeService.create_v1_container_list`: drops containers that
convert to `None` and collapses an empty result list to `None`. -/
def create_v1_container_list : Option (List Container) → Option (List V1Container)
  | none => none
  | some containers =>
    let container_list := containers.foldl
      (fun acc container =>
        append_if_present acc (create_v1_container container.image
          container.image_pull_policy container.name container.command container.args
          container.ports container.resources)) []
    if container_list.length < 1 then none else some container_list

/-- Embeds `KServeService.create_v1beta1_logger_spec`. -/
def create_v1beta1_logger_spec : Option Logger → Option V1beta1LoggerSpec
  | none => none
  | some logger => some { mode := logger.mode, url := logger.url }

/-- Embeds `KServeService.create_v1_env_var` (total: never absent). -/
def create_v1_env_var (env : Env) : V1EnvVar :=
  { name := env.name, value := env.value }

/-- Embeds `KServeService.create_v1_env_var_list`: the source converts
every entry and returns the accumulated list as is — there is no
empty-list-to-`None` collapse here, unlike the container and port lists. -/
def create_v1_env_var_list : Option (List Env) → Option (List V1EnvVar)
  | none => none
  | some envs => some (envs.foldl (fun acc env => acc ++ [create_v1_env_var env]) [])

/-- Embeds `KServeService.create_v1_toleration` (total: never absent). -/
def create_v1_toleration (toleration : Toleration) : V1Toleration :=
  { key := toleration.key, operator := toleration.operator,
    value := toleration.value, effect := toleration.effect }

/-- Embeds `KServeService.create_v1_toleration_list`: like the env-var
list, no empty-list-to-`None` collapse. -/
def create_v1_toleration_list : Option (List Toleration) → Option (List V1Toleration)
  | none => none
  | some tolerations =>
    some (tolerations.foldl (fun acc toleration => acc ++ [create_v1_toleration toleration]) [])

/-- Embeds `KServeService.create_v1beta1_batcher`. -/
def create_v1beta1_batcher : Option Batcher → Option V1beta1Batcher
  | none => none
  | some batcher => some { max_batch_size := batcher.max_batch_size,
                           max_latency := batcher.max_latency }

/-! ## Model registry (MLflow) and storage-URI resolution -/

/-- One entry of the list returned by MLflow's `get_latest_versions`. -/
structure ModelVersion where
  version : Int
  source : String
  deriving Repr, DecidableEq

/-- The model registry, as seen through `get_latest_versions(model_name)`
on the composition path (the service always calls it with `stage=None`
there, so the stage filter is not modelled). -/
def Registry : Type := String → List ModelVersion

/-- Embeds `KServeService.get_latest_versions_from_mlflow` with
`stage=None`, the only way the composition path calls it. -/
def get_latest_versions_from_mlflow (registry : Registry) (model_name : String) :
    List ModelVersion :=
  registry model_name

/-- Embeds `KServeService.get_latest_model_version_storage_uri` (service.py
lines 270-277): `None` when the registry returns no versions, otherwise the
`source` of the *last* entry of the returned list. -/
def get_latest_model_version_storage_uri (registry : Registry) (model_name : String) :
    Option String :=
  let latest_model_versions := get_latest_versions_from_mlflow registry model_name
  if latest_model_versions.length < 1 then none
  else latest_model_versions.getLast?.map ModelVersion.source

/-- Embeds service.py lines 63-68, the first half of
`create_v1beta1_model_spec`: the local `storage_uri` value after the
optional registry lookup. The second component records the model names
looked up in the registry (empty iff the registry was not consulted). -/
def resolve_storage_uri (registry : Registry) (model_spec : ModelSpec) :
    Option String × List String :=
  match model_spec.model_name with
  | some model_name =>
    if model_spec.model_format.name = "mlflow" ∧ model_spec.protocol_version = some "v2" then
      (get_latest_model_version_storage_uri registry model_name, [model_name])
    else
      (model_spec.storage_uri, [])
  | none => (model_spec.storage_uri, [])

/-! ## Spec composition (service.py lines 62-78 and 200-313) -/

/-- Embeds `KServeService.create_v1beta1_model_spec` (service.py lines
62-78). Faithful to the source, the composed record's `storage_uri` field
is `model_spec.storage_uri` — the caller-supplied field, line 72 — and not
the locally resolved value that gated the `None` check. -/
def create_v1beta1_model_spec (registry : Registry) (model_spec : ModelSpec) :
    Option V1beta1ModelSpec × List String :=
  let resolved := resolve_storage_uri registry model_spec
  match resolved.1 with
  | none => (none, resolved.2)
  | some _ =>
    (some { model_format := create_v1beta1_model_format model_spec.model_format,
            storage_uri := model_spec.storage_uri,
            protocol_version := model_spec.protocol_version,
            resources := create_v1_resource_requirements model_spec.resources,
            runtime := model_spec.runtime,
            runtime_version := model_spec.runtime_version,
            ports := create_v1_container_port_list model_spec.ports,
            env := create_v1_env_var_list model_spec.envs },
     resolved.2)

/-- Embeds `KServeService.create_v1beta1_predictor_spec`. -/
def create_v1beta1_predictor_spec (registry : Registry) (predictor_spec : PredictorSpec) :
    Option V1beta1PredictorSpec × List String :=
  match create_v1beta1_model_spec registry predictor_spec.model_spec with
  | (none, consulted) => (none, consulted)
  | (some model_spec, consulted) =>
    (some { model := model_spec,
            service_account_name := predictor_spec.service_account_name,
            node_selector := predictor_spec.node_selector,
            timeout := predictor_spec.timeout,
            min_replicas := predictor_spec.min_replicas,
            max_replicas := predictor_spec.max_replicas,
            scale_target := predictor_spec.scale_target,
            scale_metric := predictor_spec.scale_metric,
            canary_traffic_percent := predictor_spec.canary_traffic_percent,
            batcher := create_v1beta1_batcher predictor_spec.batcher,
            logger := create_v1beta1_logger_spec predictor_spec.logger,
            tolerations := create_v1_toleration_list predictor_spec.tolerations },
     consulted)

/-- Embeds `KServeService.create_v1beta1_transformer_spec`: absent when no
transformer was supplied or when its container list collapses to `None`. -/
def create_v1beta1_transformer_spec :
    Option TransformerSpec → Option V1beta1TransformerSpec
  | none => none
  | some transformer_spec =>
    match create_v1_container_list (some transformer_spec.containers) with
    | none => none
    | some containers =>
      some { containers := containers,
             service_account_name := transformer_spec.service_account_name,
             node_selector := transformer_spec.node_selector,
             timeout := transformer_spec.timeout,
             min_replicas := transformer_spec.min_replicas,
             max_replicas := transformer_spec.max_replicas,
             scale_target := transformer_spec.scale_target,
             scale_metric := transformer_spec.scale_metric,
             canary_traffic_percent := transformer_spec.canary_traffic_percent,
             batcher := create_v1beta1_batcher transformer_spec.batcher,
             tolerations := create_v1_toleration_list transformer_spec.tolerations }

/-- Embeds `KServeService.create_v1beta1_inference_service_spec`. -/
def create_v1beta1_inference_service_spec (registry : Registry)
    (inference_service_spec : InferenceServiceSpec) :
    Option V1beta1InferenceServiceSpec × List String :=
  match create_v1beta1_predictor_spec registry inference_service_spec.predictor with
  | (none, consulted) => (none, consulted)
  | (some predictor_spec, consulted) =>
    (some { predictor := predictor_spec,
            transformer := create_v1beta1_transformer_spec inference_service_spec.transformer },
     consulted)

/-- `constants.KSERVE_V1BETA1` of the kserve client. -/
def KSERVE_V1BETA1 : String := "serving.kserve.io/v1beta1"

/-- `constants.KSERVE_KIND` of the kserve client. -/
def KSERVE_KIND : String := "InferenceService"

/-- Embeds `KServeService.create_v1_object_meta`. -/
def create_v1_object_meta (name : String) (namespace_ : Option String)
    (ann : Option (List (String × String))) : V1ObjectMeta :=
  { name := name, namespace_ := namespace_, annotations := ann }

/-- Embeds `KServeService.create_v1beta1_inference_service` (service.py
lines 279-296). -/
def create_v1beta1_inference_service (registry : Registry)
    (inference_service_info : InferenceServiceInfo) :
    Option V1beta1InferenceService × List String :=
  match create_v1beta1_inference_service_spec registry
      inference_service_info.inference_service_spec with
  | (none, consulted) => (none, consulted)
  | (some inference_service_spec, consulted) =>
    (some { api_version := KSERVE_V1BETA1,
            kind := KSERVE_KIND,
            metadata := create_v1_object_meta inference_service_info.name
              (some inference_service_info.namespace_)
              (get_inference_service_annotations inference_service_info.sidecar_inject
                inference_service_info.enable_prometheus_scraping),
            spec := inference_service_spec },
     consulted)

/-- Outcome of `KServeService.create_inference_service` up to the platform
boundary: `rejected` is the source's early `return False` (no client call),
`submitted svc` is the source reaching `self.get_kserve_client().create(svc)`. -/
inductive CreateResult where
  | rejected
  | submitted (svc : V1beta1InferenceService)
  deriving Repr, DecidableEq

/-- Embeds `KServeService.create_inference_service` (service.py lines
298-313) up to the platform write. -/
def create_inference_service (registry : Registry)
    (inference_service_info : InferenceServiceInfo) : CreateResult × List String :=
  match create_v1beta1_inference_service registry inference_service_info with
  | (none, consulted) => (CreateResult.rejected, consulted)
  | (some v1beta1_i_svc, consulted) => (CreateResult.submitted v1beta1_i_svc, consulted)

/-! ## Inference protocol adapter (`KServeService.infer_model`,
service.py lines 404-466) -/

/-- The JSON body `infer_model` hands to `httpx.post`, parameterised by
the scalar type of the caller's payload (the source never inspects the
scalars themselves). `v2Inputs` is the
`{"inputs": [{"name", "shape", "datatype", "data"}]}` envelope;
`tfInstances` is the tensorflow
`{"instances": [{"image_bytes": {"b64": data}, "key": ...}]}` envelope;
`emptyBody` is the `{}` the source sends for an unrecognised format. -/
inductive InferBody (α : Type) where
  | v2Inputs (name : String) (shape : List Nat) (datatype : String) (data : List (List α))
  | tfInstances (image_bytes_b64 : List (List α)) (key : String)
  | emptyBody
  deriving Repr, DecidableEq

/-- The HTTP POST the source performs: the URL, the `Host` header value
and the JSON body. -/
structure HttpPost (α : Type) where
  url : String
  host : String
  body : InferBody α
  deriving Repr, DecidableEq

/-- Python errors `infer_model` can raise while building the request:
`indexError` is `data[0]` on an empty list, `attributeError` is
`.group(1)` after `re.search` found no match. -/
inductive PyError where
  | indexError
  | attributeError
  deriving Repr, DecidableEq

/-- The model formats routed to the v2 `inputs` envelope at service.py
line 414. -/
def v2_model_formats : List String := ["xgboost", "sklearn", "lightgbm", "pmml"]

/-- `re.search(r'-(.*?)-', name).group(1)`: the characters strictly
between the first `-` of `name` and the next `-` after it, or `None` when
`name` has fewer than two dashes. -/
def pytorch_url_name (name : String) : Option String :=
  match name.splitOn "-" with
  | _ :: middle :: _ :: _ => some middle
  | _ => none

/-- Embeds `KServeService.infer_model` (service.py lines 404-451) up to
the `httpx.post` call: it returns the request the source would send, or
the Python error raised while building it. The source builds the URL
first and the body second, so for the pytorch branch a failing regex
lookup surfaces before the empty-payload indexing does. -/
def infer_model {α : Type} (ingress_url : String) (name : String) (namespace_ : String)
    (model_format : String) (data : List (List α)) : Except PyError (HttpPost α) :=
  let host := name ++ "." ++ namespace_ ++ ".svc.cluster.local"
  if model_format ∈ v2_model_formats then
    match data with
    | [] => Except.error PyError.indexError
    | d0 :: _ =>
      Except.ok { url := ingress_url ++ "/v2/models/" ++ name ++ "/infer", host := host,
                  body := InferBody.v2Inputs "input-0" [data.length, d0.length] "FP32" data }
  else if model_format = "pytorch" then
    match pytorch_url_name name with
    | none => Except.error PyError.attributeError
    | some url_name =>
      match data with
      | [] => Except.error PyError.indexError
      | d0 :: _ =>
        Except.ok { url := ingress_url ++ "/v2/models/" ++ url_name ++ "/infer", host := host,
                    body := InferBody.v2Inputs "input-0" [data.length, d0.length] "FP32" data }
  else if model_format = "tensorflow" then
    Except.ok { url := ingress_url ++ "/v1/models/" ++ name ++ ":predict", host := host,
                body := InferBody.tfInstances data "    1" }
  else
    Except.ok { url := "", host := host, body := InferBody.emptyBody }

/-! ## Proof-layer helpers and concrete fixtures -/

/-- The per-entry conversion `create_v1_container_list` applies. -/
def convert_container (container : Container) : Option V1Container :=
  create_v1_container container.image container.image_pull_policy container.name
    container.command container.args container.ports container.resources

/-- The per-entry conversion `create_v1_container_port_list` applies. -/
def convert_port (port : Port) : Option V1ContainerPort :=
  create_v1_container_port port.container_port port.host_ip port.host_port
    port.name port.protocol

/-- The cpu entry `get_resource_dict` would store, in isolation. -/
def qualify_cpu (resource : Resource) : Option String :=
  match resource.cpu with
  | some cpu => if cpu.trim.endsWith "m" then some cpu.trim else none
  | none => none

/-- The memory entry `get_resource_dict` would store, in isolation. -/
def qualify_memory (resource : Resource) : Option String :=
  match resource.memory with
  | some memory => if memory.trim.endsWith "Gi" then some memory.trim else none
  | none => none

/-- The gpu entry `get_resource_dict` would store, in isolation. -/
def qualify_gpu (resource : Resource) : Option Int :=
  match resource.gpu with
  | some gpu => if 0 < gpu then some gpu else none
  | none => none

/-- A registry with no versions for any model name. -/
def empty_registry : Registry := fun _ => []

/-- Registry fixture for the end-to-end scenario: `"iris-model"` has two
versions whose sources are `s3://a/1` and `s3://a/2`. -/
def iris_registry : Registry := fun model_name =>
  if model_name = "iris-model" then
    [{ version := 1, source := "s3://a/1" }, { version := 2, source := "s3://a/2" }]
  else []

/-- Model-spec fixture for the end-to-end scenario: logical name set,
mlflow format, protocol v2, no storage URI. -/
def iris_model_spec : ModelSpec :=
  { model_name := some "iris-model", storage_uri := none,
    protocol_version := some "v2", model_format := { name := "mlflow" } }

/-- Model-spec fixture with an explicit storage URI and protocol v1. -/
def c5_model_spec : ModelSpec :=
  { model_name := some "m", storage_uri := some "s3://bucket/model",
    protocol_version := some "v1", model_format := { name := "mlflow" } }

/-- Registry fixture that does know a version for every model name. -/
def other_registry : Registry := fun _ => [{ version := 7, source := "s3://registry/other" }]

/-- Model-spec fixture with all resolution-relevant fields unset. -/
def empty_model_spec : ModelSpec := { model_format := {} }

/-- Create-request fixture whose model spec cannot resolve a storage URI. -/
def c4_info : InferenceServiceInfo :=
  { name := "svc",
    inference_service_spec := { predictor := { model_spec := empty_model_spec } } }

/-- Model-spec fixture for the mlflow/v2 path with an explicit storage URI
also supplied. -/
def c10_model_spec : ModelSpec :=
  { model_name := some "m", storage_uri := some "s3://explicit",
    protocol_version := some "v2", model_format := { name := "mlflow" } }

/-- Create-request fixture around `c10_model_spec`. -/
def c10_info : InferenceServiceInfo :=
  { name := "svc",
    inference_service_spec := { predictor := { model_spec := c10_model_spec } } }

/-! ## Shared lemmas -/

/-- `append_if_present` on an absent entry. -/
theorem append_if_present_none {β : Type} (acc : List β) :
    append_if_present acc none = acc := rfl

/-- `append_if_present` on a present entry. -/
theorem append_if_present_some {β : Type} (acc : List β) (v : β) :
    append_if_present acc (some v) = acc ++ [v] := rfl

/-- The source's append-if-converted loop is `List.filterMap`. -/
theorem foldl_append_filterMap {α β : Type} (f : α → Option β) :
    ∀ (l : List α) (acc : List β),
      l.foldl (fun a x => append_if_present a (f x)) acc = acc ++ l.filterMap f := by
  intro l
  induction l with
  | nil => intro acc; simp
  | cons x xs ih =>
    intro acc
    simp only [List.foldl_cons]
    cases hfx : f x with
    | none => simp [List.filterMap_cons, hfx, append_if_present_none, ih]
    | some v => simp [List.filterMap_cons, hfx, append_if_present_some, ih]

/-- The source's append-always loop is `List.map`. -/
theorem foldl_append_map {α β : Type} (f : α → β) :
    ∀ (l : List α) (acc : List β),
      l.foldl (fun a x => a ++ [f x]) acc = acc ++ l.map f := by
  intro l
  induction l with
  | nil => intro acc; simp
  | cons x xs ih => intro acc; simp [ih]

/-- `get_resource_dict` on a present resource, in closed form: the three
entries qualify independently, and the dict exists iff one of them does. -/
theorem get_resource_dict_some_eq (resource : Resource) :
    get_resource_dict (some resource) =
      if (qualify_cpu resource).isSome ∨ (qualify_memory resource).isSome ∨
          (qualify_gpu resource).isSome
      then some { cpu := qualify_cpu resource, memory := qualify_memory resource,
                  gpu := qualify_gpu resource }
      else none := by
  obtain ⟨c, m, g⟩ := resource
  rcases c with _ | c <;> rcases m with _ | m <;> rcases g with _ | g <;>
    simp only [get_resource_dict, qualify_cpu, qualify_memory, qualify_gpu] <;>
    split_ifs <;>
    simp_all [ResourceDict.size]

/-! ## Claim theorems -/

/-- C7: for every pair of flags, the derived annotation map contains the
`sidecar.istio.io/inject = "false"` entry iff `sidecar_inject` is false,
contains the `serving.kserve.io/enable-prometheus-scraping = "true"` entry
iff `enable_prometheus_scraping` is true, and is omitted entirely (absent,
not an empty map) when `sidecar_inject` is true and
`enable_prometheus_scraping` is false; all four combinations are covered. -/
theorem c7_annotation_flag_combinations :
    ∀ sidecar_inject enable_prometheus_scraping : Bool,
      ((("sidecar.istio.io/inject", "false") ∈
          (get_inference_service_annotations sidecar_inject enable_prometheus_scraping).getD [])
        ↔ sidecar_inject = false) ∧
      ((("serving.kserve.io/enable-prometheus-scraping", "true") ∈
          (get_inference_service_annotations sidecar_inject enable_prometheus_scraping).getD [])
        ↔ enable_prometheus_scraping = true) ∧
      get_inference_service_annotations true false = none := by
  decide

/-- C8 counterexample: the env-var list converter does *not* return `None`
when no entries survive — on an empty input list it returns the empty
list itself (the source has no length check there), contradicting the
claim that every list converter collapses an empty result to absence. -/
theorem c8_counterexample_empty_env_list :
    create_v1_env_var_list (some ([] : List Env)) = some [] ∧
    create_v1_toleration_list (some ([] : List Toleration)) = some [] := by
  exact ⟨rfl, rfl⟩

/-- C8 amended: the container and port list converters drop entries that
individually convert to absent and return absence instead of an empty
list when no entries survive; the env-var and toleration converters map
every entry (none converts to absent individually) and return an empty
list — not absence — on an empty input; a transformer spec is built iff a
transformer is supplied and its converted container list is non-empty. -/
theorem c8_list_collapse_and_transformer_gate
    (containers : List Container) (ports : List Port) (envs : List Env)
    (tolerations : List Toleration) (transformer_spec : TransformerSpec) :
    (create_v1_container_list (some containers) =
      if (containers.filterMap convert_container).length < 1 then none
      else some (containers.filterMap convert_container)) ∧
    create_v1_container_list (some containers) ≠ some [] ∧
    (create_v1_container_port_list (some ports) =
      if (ports.filterMap convert_port).length < 1 then none
      else some (ports.filterMap convert_port)) ∧
    create_v1_container_port_list (some ports) ≠ some [] ∧
    create_v1_env_var_list (some envs) = some (envs.map create_v1_env_var) ∧
    create_v1_toleration_list (some tolerations) = some (tolerations.map create_v1_toleration) ∧
    ((create_v1beta1_transformer_spec (some transformer_spec)).isSome ↔
      (create_v1_container_list (some transformer_spec.containers)).isSome) ∧
    create_v1beta1_transformer_spec none = none := by
  have hcont : ∀ cs : List Container,
      create_v1_container_list (some cs) =
        if (cs.filterMap convert_container).length < 1 then none
        else some (cs.filterMap convert_container) := by
    intro cs
    simp only [create_v1_container_list]
    rw [foldl_append_filterMap]
    rfl
  have hport : create_v1_container_port_list (some ports) =
      if (ports.filterMap convert_port).length < 1 then none
      else some (ports.filterMap convert_port) := by
    simp only [create_v1_container_port_list]
    rw [foldl_append_filterMap]
    rfl
  have hne : ∀ (l : List V1Container),
      (if l.length < 1 then (none : Option (List V1Container)) else some l) ≠ some [] := by
    intro l
    split_ifs with h
    · simp
    · simp only [ne_eq, Option.some.injEq]
      intro hl
      subst hl
      simp at h
  have hnep : (if (ports.filterMap convert_port).length < 1
        then (none : Option (List V1ContainerPort))
        else some (ports.filterMap convert_port)) ≠ some [] := by
    split_ifs with h
    · simp
    · simp only [ne_eq, Option.some.injEq]
      intro hl
      rw [hl] at h
      simp at h
  refine ⟨hcont containers, ?_, hport, ?_, ?_, ?_, ?_, rfl⟩
  · rw [hcont containers]
    exact hne _
  · rw [hport]
    exact hnep
  · simp only [create_v1_env_var_list]
    rw [foldl_append_map]
    simp
  · simp only [create_v1_toleration_list]
    rw [foldl_append_map]
    simp
  · cases h : create_v1_container_list (some transformer_spec.containers) <;>
      simp [create_v1beta1_transformer_spec, h]

/-- C9: the claim says an empty input payload must fail with `InvalidInput`
before any shape computation. The code has no such validation: for the
v2-family formats it evaluates `data[0]` during shape computation and so
raises `IndexError` on an empty payload, and for tensorflow it happily
sends the empty payload. Evaluated here at the failing input. -/
theorem c9_empty_payload_hits_index_error :
    infer_model "http://ingress" "svc" "ns" "sklearn" ([] : List (List Nat)) =
      Except.error PyError.indexError ∧
    infer_model "http://ingress" "svc" "ns" "tensorflow" ([] : List (List Nat)) =
      Except.ok { url := "http://ingress/v1/models/svc:predict",
                  host := "svc.ns.svc.cluster.local",
                  body := InferBody.tfInstances [] "    1" } := by
  exact ⟨rfl, rfl⟩

/-- C1: the claim says the composed platform model spec's storage URI
equals the source of the last registry entry (`"s3://a/2"` in the
end-to-end scenario). The registry lookup does return `"s3://a/2"` and
gates composition, but service.py line 72 writes the *caller-supplied*
`model_spec.storage_uri` — absent here — into the composed spec, so the
composed storage URI is `None`, not `"s3://a/2"`: the resolved URI is
computed and then discarded. -/
theorem c1_resolved_uri_not_composed :
    get_latest_model_version_storage_uri iris_registry "iris-model" = some "s3://a/2" ∧
    resolve_storage_uri iris_registry iris_model_spec = (some "s3://a/2", ["iris-model"]) ∧
    (create_v1beta1_model_spec iris_registry iris_model_spec).1.map V1beta1ModelSpec.storage_uri
      = some none := by
  refine ⟨rfl, rfl, rfl⟩

/-- C2 counterexample: `infer_model` takes no deployment status, fetches
none, and has no `ServiceNotReady` branch; at this concrete input — which
therefore also covers every deployment whose status has no url — it
issues the HTTP POST to the ingress-derived URL, contradicting the claim
that no HTTP call is performed. -/
theorem c2_counterexample_post_despite_no_url :
    infer_model "http://ingress" "svc" "ns" "sklearn" [[(1 : Nat), 2]] =
      Except.ok { url := "http://ingress/v2/models/svc/infer",
                  host := "svc.ns.svc.cluster.local",
                  body := InferBody.v2Inputs "input-0" [1, 2] "FP32" [[1, 2]] } := by
  rfl

/-- C2 amended: `infer_model` never consults the deployment status and has
no `ServiceNotReady` outcome; for every v2-family format with a non-empty
payload it issues the HTTP POST to `<ingress>/v2/models/<name>/infer`,
and for tensorflow it issues the POST for every payload whatsoever. -/
theorem c2_infer_posts_without_readiness_check {α : Type}
    (ingress_url name namespace_ model_format : String)
    (d0 : List α) (rest : List (List α)) (hfmt : model_format ∈ v2_model_formats) :
    (∃ r : HttpPost α,
      infer_model ingress_url name namespace_ model_format (d0 :: rest) = Except.ok r ∧
        r.url = ingress_url ++ "/v2/models/" ++ name ++ "/infer") ∧
    (∀ data : List (List α),
      ∃ r : HttpPost α,
        infer_model ingress_url name namespace_ "tensorflow" data = Except.ok r) := by
  constructor
  · refine ⟨{ url := ingress_url ++ "/v2/models/" ++ name ++ "/infer",
              host := name ++ "." ++ namespace_ ++ ".svc.cluster.local",
              body := InferBody.v2Inputs "input-0" [(d0 :: rest).length, d0.length]
                "FP32" (d0 :: rest) }, ?_, rfl⟩
    simp only [infer_model, if_pos hfmt]
  · intro data
    refine ⟨{ url := ingress_url ++ "/v1/models/" ++ name ++ ":predict",
              host := name ++ "." ++ namespace_ ++ ".svc.cluster.local",
              body := InferBody.tfInstances data "    1" }, ?_⟩
    simp only [infer_model]
    rw [if_neg (by decide), if_neg (by decide)]
    simp

/-- Witness for the C2 amended theorem at `model_format = "sklearn"`,
payload `[[1, 2]]`. -/
theorem c2_infer_posts_without_readiness_check_witness :
    ("sklearn" ∈ v2_model_formats) ∧
    ((∃ r : HttpPost Nat,
        infer_model "http://i" "svc" "ns" "sklearn" ([1, 2] :: []) = Except.ok r ∧
          r.url = "http://i" ++ "/v2/models/" ++ "svc" ++ "/infer") ∧
      (∀ data : List (List Nat),
        ∃ r : HttpPost Nat, infer_model "http://i" "svc" "ns" "tensorflow" data = Except.ok r)) :=
  ⟨by decide,
    c2_infer_posts_without_readiness_check "http://i" "svc" "ns" "sklearn" [1, 2] [] (by decide)⟩

/-- C3 counterexample: for input `[[1.0, 2.0], [3.0, 4.0]]` (scalars
abstracted) the single-input v2 envelope the code builds names its tensor
`"input-0"`, not `"input"` as claimed, and the v1 (tensorflow) envelope is
`{"instances": [{"image_bytes": {"b64": data}, "key": "    1"}]}`, not
`{"instances": [input_payload]}`; there is no `multi` parameter and the
branch is chosen by `model_format`, not by a deployed protocol version. -/
theorem c3_counterexample_envelope_shapes :
    infer_model "http://ingress" "svc" "ns" "sklearn" [[(1 : Nat), 2], [3, 4]] =
      Except.ok { url := "http://ingress/v2/models/svc/infer",
                  host := "svc.ns.svc.cluster.local",
                  body := InferBody.v2Inputs "input-0" [2, 2] "FP32" [[1, 2], [3, 4]] } ∧
    InferBody.v2Inputs "input-0" [2, 2] "FP32" [[(1 : Nat), 2], [3, 4]] ≠
      InferBody.v2Inputs "input" [2, 2] "FP32" [[1, 2], [3, 4]] ∧
    infer_model "http://ingress" "svc" "ns" "tensorflow" [[(1 : Nat), 2], [3, 4]] =
      Except.ok { url := "http://ingress/v1/models/svc:predict",
                  host := "svc.ns.svc.cluster.local",
                  body := InferBody.tfInstances [[1, 2], [3, 4]] "    1" } := by
  exact ⟨rfl, by decide, rfl⟩

/-- C3 amended: the envelope is selected by `model_format`. For the
v2-family formats the body is
`{"inputs": [{"name": "input-0", "shape": [len(data), len(data[0])],
"datatype": "FP32", "data": data}]}` posted to
`<ingress>/v2/models/<name>/infer`; for pytorch the same `input-0` body is
posted to `<ingress>/v2/models/<m>/infer` where `<m>` is the segment of
the service name between its first two dashes — a name with fewer than
two dashes raises `AttributeError` before any request exists; for
tensorflow the body is
`{"instances": [{"image_bytes": {"b64": data}, "key": "    1"}]}` posted
to `<ingress>/v1/models/<name>:predict`. -/
theorem c3_envelopes_by_model_format {α : Type}
    (ingress_url name namespace_ model_format : String)
    (d0 : List α) (rest : List (List α)) (hfmt : model_format ∈ v2_model_formats) :
    infer_model ingress_url name namespace_ model_format (d0 :: rest) =
      Except.ok { url := ingress_url ++ "/v2/models/" ++ name ++ "/infer",
                  host := name ++ "." ++ namespace_ ++ ".svc.cluster.local",
                  body := InferBody.v2Inputs "input-0" [(d0 :: rest).length, d0.length]
                    "FP32" (d0 :: rest) } ∧
    infer_model ingress_url name namespace_ "pytorch" (d0 :: rest) =
      (match pytorch_url_name name with
        | some url_name =>
          Except.ok { url := ingress_url ++ "/v2/models/" ++ url_name ++ "/infer",
                      host := name ++ "." ++ namespace_ ++ ".svc.cluster.local",
                      body := InferBody.v2Inputs "input-0" [(d0 :: rest).length, d0.length]
                        "FP32" (d0 :: rest) }
        | none => Except.error PyError.attributeError) ∧
    infer_model ingress_url name namespace_ "tensorflow" (d0 :: rest) =
      Except.ok { url := ingress_url ++ "/v1/models/" ++ name ++ ":predict",
                  host := name ++ "." ++ namespace_ ++ ".svc.cluster.local",
                  body := InferBody.tfInstances (d0 :: rest) "    1" } := by
  refine ⟨?_, ?_, ?_⟩
  · simp only [infer_model, if_pos hfmt]
  · simp only [infer_model]
    rw [if_neg (by decide)]
    cases hp : pytorch_url_name name <;> simp [hp]
  · simp only [infer_model]
    rw [if_neg (by decide), if_neg (by decide)]
    simp

/-- Witness for the C3 amended theorem at `model_format = "sklearn"`,
service name `"torch-mnist-v1"` (so the pytorch conjunct takes the
two-dash branch, with url name `"mnist"`), payload `[[1, 2], [3, 4]]`. -/
theorem c3_envelopes_by_model_format_witness :
    ("sklearn" ∈ v2_model_formats) ∧
    (infer_model "http://i" "torch-mnist-v1" "ns" "sklearn" ([1, 2] :: [[3, 4]]) =
      Except.ok { url := "http://i" ++ "/v2/models/" ++ "torch-mnist-v1" ++ "/infer",
                  host := "torch-mnist-v1" ++ "." ++ "ns" ++ ".svc.cluster.local",
                  body := InferBody.v2Inputs "input-0"
                    [([1, 2] :: [[3, 4]]).length, [(1 : Nat), 2].length] "FP32"
                    ([1, 2] :: [[3, 4]]) } ∧
      infer_model "http://i" "torch-mnist-v1" "ns" "pytorch" ([1, 2] :: [[3, 4]]) =
        (match pytorch_url_name "torch-mnist-v1" with
          | some url_name =>
            Except.ok { url := "http://i" ++ "/v2/models/" ++ url_name ++ "/infer",
                        host := "torch-mnist-v1" ++ "." ++ "ns" ++ ".svc.cluster.local",
                        body := InferBody.v2Inputs "input-0"
                          [([1, 2] :: [[3, 4]]).length, [(1 : Nat), 2].length] "FP32"
                          ([1, 2] :: [[3, 4]]) }
          | none => Except.error PyError.attributeError) ∧
      infer_model "http://i" "torch-mnist-v1" "ns" "tensorflow" ([1, 2] :: [[3, 4]]) =
        Except.ok { url := "http://i" ++ "/v1/models/" ++ "torch-mnist-v1" ++ ":predict",
                    host := "torch-mnist-v1" ++ "." ++ "ns" ++ ".svc.cluster.local",
                    body := InferBody.tfInstances ([1, 2] :: [[3, 4]]) "    1" }) :=
  ⟨by decide,
    c3_envelopes_by_model_format "http://i" "torch-mnist-v1" "ns" "sklearn"
      [1, 2] [[3, 4]] (by decide)⟩

/-- C4: whenever storage-URI resolution yields no URI, the whole
composition returns the absent result and `create_inference_service`
returns the rejected outcome — the invalid spec never reaches the
platform write. -/
theorem c4_incomplete_spec_never_submitted (registry : Registry)
    (info : InferenceServiceInfo)
    (h : (resolve_storage_uri registry info.inference_service_spec.predictor.model_spec).1
      = none) :
    (create_v1beta1_inference_service registry info).1 = none ∧
    (create_inference_service registry info).1 = CreateResult.rejected := by
  have hm : create_v1beta1_model_spec registry
      info.inference_service_spec.predictor.model_spec =
        (none, (resolve_storage_uri registry
          info.inference_service_spec.predictor.model_spec).2) := by
    simp only [create_v1beta1_model_spec, h]
  have hp : create_v1beta1_predictor_spec registry
      info.inference_service_spec.predictor =
        (none, (resolve_storage_uri registry
          info.inference_service_spec.predictor.model_spec).2) := by
    simp only [create_v1beta1_predictor_spec, hm]
  have hs : create_v1beta1_inference_service_spec registry
      info.inference_service_spec =
        (none, (resolve_storage_uri registry
          info.inference_service_spec.predictor.model_spec).2) := by
    simp only [create_v1beta1_inference_service_spec, hp]
  have hi : create_v1beta1_inference_service registry info =
      (none, (resolve_storage_uri registry
        info.inference_service_spec.predictor.model_spec).2) := by
    simp only [create_v1beta1_inference_service, hs]
  refine ⟨by rw [hi], ?_⟩
  simp only [create_inference_service, hi]

/-- Witness for C4 at a model spec with neither a logical name nor a
storage URI. -/
theorem c4_incomplete_spec_never_submitted_witness :
    ((resolve_storage_uri empty_registry
        c4_info.inference_service_spec.predictor.model_spec).1 = none) ∧
    ((create_v1beta1_inference_service empty_registry c4_info).1 = none ∧
      (create_inference_service empty_registry c4_info).1 = CreateResult.rejected) :=
  ⟨rfl, c4_incomplete_spec_never_submitted empty_registry c4_info rfl⟩

/-- C5: with an explicit storage URI and a protocol version other than
`"v2"`, the composed model spec carries that URI unchanged, the registry
is never consulted (empty consultation log), and the result is identical
for every registry state. -/
theorem c5_explicit_uri_non_v2_bypasses_registry (registry registry2 : Registry)
    (model_spec : ModelSpec) (uri : String)
    (huri : model_spec.storage_uri = some uri)
    (hproto : model_spec.protocol_version ≠ some "v2") :
    (create_v1beta1_model_spec registry model_spec).1.map V1beta1ModelSpec.storage_uri
        = some (some uri) ∧
    (create_v1beta1_model_spec registry model_spec).2 = [] ∧
    create_v1beta1_model_spec registry model_spec
      = create_v1beta1_model_spec registry2 model_spec := by
  have hres : ∀ r : Registry, resolve_storage_uri r model_spec = (some uri, []) := by
    intro r
    cases hmn : model_spec.model_name with
    | none => simp only [resolve_storage_uri, hmn, huri]
    | some n =>
      simp only [resolve_storage_uri, hmn]
      rw [if_neg (fun hcon => hproto hcon.2), huri]
  refine ⟨?_, ?_, ?_⟩
  · simp only [create_v1beta1_model_spec, hres, huri]
    rfl
  · simp only [create_v1beta1_model_spec, hres]
  · simp only [create_v1beta1_model_spec, hres]

/-- Witness for C5 at `c5_model_spec` (explicit URI, protocol `"v1"`),
checked against two different registry states. -/
theorem c5_explicit_uri_non_v2_bypasses_registry_witness :
    (c5_model_spec.storage_uri = some "s3://bucket/model") ∧
    (c5_model_spec.protocol_version ≠ some "v2") ∧
    ((create_v1beta1_model_spec other_registry c5_model_spec).1.map
        V1beta1ModelSpec.storage_uri = some (some "s3://bucket/model") ∧
      (create_v1beta1_model_spec other_registry c5_model_spec).2 = [] ∧
      create_v1beta1_model_spec other_registry c5_model_spec
        = create_v1beta1_model_spec empty_registry c5_model_spec) :=
  ⟨rfl, by decide,
    c5_explicit_uri_non_v2_bypasses_registry other_registry empty_registry c5_model_spec
      "s3://bucket/model" rfl (by decide)⟩

/-- C10: with a logical model name, format `"mlflow"` and protocol
`"v2"`, the registry is consulted regardless of any explicitly supplied
storage URI (the consultation log is exactly the model name, and the
resolved URI is the registry's answer, not the caller's); when the
registry returns zero versions the whole creation is rejected despite the
explicit URI. -/
theorem c10_registry_overrides_explicit_uri (registry : Registry)
    (info : InferenceServiceInfo) (n : String)
    (hname : info.inference_service_spec.predictor.model_spec.model_name = some n)
    (hfmt : info.inference_service_spec.predictor.model_spec.model_format.name = "mlflow")
    (hproto : info.inference_service_spec.predictor.model_spec.protocol_version = some "v2") :
    (create_v1beta1_model_spec registry
        info.inference_service_spec.predictor.model_spec).2 = [n] ∧
    (resolve_storage_uri registry info.inference_service_spec.predictor.model_spec).1
        = get_latest_model_version_storage_uri registry n ∧
    (registry n = [] →
      create_inference_service registry info = (CreateResult.rejected, [n])) := by
  have hres : resolve_storage_uri registry info.inference_service_spec.predictor.model_spec
      = (get_latest_model_version_storage_uri registry n, [n]) := by
    simp only [resolve_storage_uri, hname]
    rw [if_pos ⟨hfmt, hproto⟩]
  refine ⟨?_, by rw [hres], ?_⟩
  · cases hu : get_latest_model_version_storage_uri registry n <;>
      simp [create_v1beta1_model_spec, hres, hu]
  · intro hreg
    have hu : get_latest_model_version_storage_uri registry n = none := by
      unfold get_latest_model_version_storage_uri get_latest_versions_from_mlflow
      rw [hreg]
      rfl
    have hm : create_v1beta1_model_spec registry
        info.inference_service_spec.predictor.model_spec = (none, [n]) := by
      simp [create_v1beta1_model_spec, hres, hu]
    have hp : create_v1beta1_predictor_spec registry
        info.inference_service_spec.predictor = (none, [n]) := by
      simp only [create_v1beta1_predictor_spec, hm]
    have hs : create_v1beta1_inference_service_spec registry
        info.inference_service_spec = (none, [n]) := by
      simp only [create_v1beta1_inference_service_spec, hp]
    have hi : create_v1beta1_inference_service registry info = (none, [n]) := by
      simp only [create_v1beta1_inference_service, hs]
    simp only [create_inference_service, hi]

/-- Witness for C10 at `c10_info`, whose model spec also carries the
explicit storage URI `"s3://explicit"`, against the empty registry. -/
theorem c10_registry_overrides_explicit_uri_witness :
    (c10_info.inference_service_spec.predictor.model_spec.model_name = some "m") ∧
    (c10_info.inference_service_spec.predictor.model_spec.model_format.name = "mlflow") ∧
    (c10_info.inference_service_spec.predictor.model_spec.protocol_version = some "v2") ∧
    (c10_info.inference_service_spec.predictor.model_spec.storage_uri = some "s3://explicit") ∧
    ((create_v1beta1_model_spec empty_registry
        c10_info.inference_service_spec.predictor.model_spec).2 = ["m"] ∧
      (resolve_storage_uri empty_registry
          c10_info.inference_service_spec.predictor.model_spec).1
        = get_latest_model_version_storage_uri empty_registry "m" ∧
      (empty_registry "m" = [] →
        create_inference_service empty_registry c10_info
          = (CreateResult.rejected, ["m"]))) :=
  ⟨rfl, rfl, rfl, rfl,
    c10_registry_overrides_explicit_uri empty_registry c10_info "m" rfl rfl rfl⟩

/-- The cpu entry of the built dict is exactly the qualifying cpu value. -/
theorem get_resource_dict_bind_cpu (resource : Resource) :
    (get_resource_dict (some resource)).bind ResourceDict.cpu = qualify_cpu resource := by
  rw [get_resource_dict_some_eq]
  split_ifs with h
  · rfl
  · simp only [not_or, Option.not_isSome_iff_eq_none] at h
    rw [h.1]
    rfl

/-- The memory entry of the built dict is exactly the qualifying memory
value. -/
theorem get_resource_dict_bind_memory (resource : Resource) :
    (get_resource_dict (some resource)).bind ResourceDict.memory = qualify_memory resource := by
  rw [get_resource_dict_some_eq]
  split_ifs with h
  · rfl
  · simp only [not_or, Option.not_isSome_iff_eq_none] at h
    rw [h.2.1]
    rfl

/-- The gpu entry of the built dict is exactly the qualifying gpu value. -/
theorem get_resource_dict_bind_gpu (resource : Resource) :
    (get_resource_dict (some resource)).bind ResourceDict.gpu = qualify_gpu resource := by
  rw [get_resource_dict_some_eq]
  split_ifs with h
  · rfl
  · simp only [not_or, Option.not_isSome_iff_eq_none] at h
    rw [h.2.2]
    rfl

/-- C6: the resource dictionary builder returns absence for an absent
input; its dict carries a cpu entry iff the trimmed cpu string ends with
`"m"`; a memory entry iff the trimmed memory string ends with `"Gi"`; the
gpu count (under the `"nvidia.com/gpu"` key, the dict's only integer
entry) iff the count is present and strictly positive, carried unchanged;
and it never returns an empty dict — absence instead. -/
theorem c6_resource_dict_builder :
    get_resource_dict none = none ∧
    ∀ resource : Resource,
      (((get_resource_dict (some resource)).bind ResourceDict.cpu).isSome = true ↔
        ∃ cpu, resource.cpu = some cpu ∧ cpu.trim.endsWith "m" = true) ∧
      (((get_resource_dict (some resource)).bind ResourceDict.memory).isSome = true ↔
        ∃ memory, resource.memory = some memory ∧ memory.trim.endsWith "Gi" = true) ∧
      (∀ gpu : Int, (get_resource_dict (some resource)).bind ResourceDict.gpu = some gpu ↔
        resource.gpu = some gpu ∧ 0 < gpu) ∧
      get_resource_dict (some resource) ≠ some {} := by
  refine ⟨rfl, fun resource => ⟨?_, ?_, ?_, ?_⟩⟩
  · rw [get_resource_dict_bind_cpu]
    cases hc : resource.cpu with
    | none => simp [qualify_cpu, hc]
    | some cpu =>
      simp only [qualify_cpu, hc]
      split_ifs with h <;> simp [h]
  · rw [get_resource_dict_bind_memory]
    cases hm : resource.memory with
    | none => simp [qualify_memory, hm]
    | some memory =>
      simp only [qualify_memory, hm]
      split_ifs with h <;> simp [h]
  · intro gpu
    rw [get_resource_dict_bind_gpu]
    cases hg : resource.gpu with
    | none => simp [qualify_gpu, hg]
    | some g =>
      simp only [qualify_gpu, hg]
      split_ifs with h
      · constructor
        · intro he
          injection he with hgg
          subst hgg
          exact ⟨rfl, h⟩
        · intro he
          exact he.1
      · constructor
        · intro he
          cases he
        · rintro ⟨he, hp⟩
          injection he with hgg
          subst hgg
          exact absurd hp h
  · rw [get_resource_dict_some_eq]
    split_ifs with h
    · simp only [ne_eq, Option.some.injEq]
      intro heq
      have h1 := congrArg ResourceDict.cpu heq
      have h2 := congrArg ResourceDict.memory heq
      have h3 := congrArg ResourceDict.gpu heq
      simp only [] at h1 h2 h3
      rcases h with h | h | h <;> simp_all
    · simp

end KServeModule








